import Mathlib

/-!
Verification of the schema code-generation engine of the smart-schema
repository (`src/lib/code-generator.ts`, with the inline duplicate in
`src/components/scripts-builder.tsx`).

The data model (`Column`, `Table`, `GeneratedSchema`) is translated from the
interfaces exported by the application's main page.  TypeScript's optional
string field `foreignKeyTable?: string` becomes `Option String`; the
JavaScript truthiness test `col.foreignKeyTable` (false on `undefined` and on
the empty string) is modelled by `strTruthy`, and the defaulting idiom
`x || dflt` (false on `undefined` and `""`) by `jsOrString`.
-/

structure Column where
  id : String
  name : String
  type : String
  nullable : Bool
  isPrimaryKey : Bool
  isForeignKey : Bool
  foreignKeyTable : Option String
  deriving DecidableEq

structure Table where
  id : String
  name : String
  columns : List Column
  deriving DecidableEq

structure GeneratedSchema where
  tables : List Table
  description : String
  explanation : Option String
  timestamp : String
  deriving DecidableEq

inductive Dialect where
  | postgresql
  | mysql
  | sqlite
  deriving DecidableEq

/-- JavaScript truthiness of an optional string: `undefined` and `""` are falsy. -/
def strTruthy : Option String → Bool
  | some s => s != ""
  | none => false

/-- The JavaScript idiom `x || dflt` applied to an optional string lookup result. -/
def jsOrString (v : Option String) (dflt : String) : String :=
  match v with
  | some s => if s = "" then dflt else s
  | none => dflt

/-- JavaScript property access on an object literal falls back to the
prototype chain: a key that is not an own property but names a member of
`Object.prototype` (such as `constructor` or `toString`) yields that inherited
member, which is truthy, so the `x || dflt` defaulting idiom does not fire on
it.  The emitters only ever use the looked-up value in string context, so the
inherited member is modelled by its string conversion (as V8 renders built-in
functions); the facts the theorems rely on are only that these values exist
and are non-empty, never their exact text. -/
def objectPrototypeLookup (key : String) : Option String :=
  if key = "constructor" then some "function Object() \x7b [native code] \x7d"
  else if key = "hasOwnProperty" then some "function hasOwnProperty() \x7b [native code] \x7d"
  else if key = "isPrototypeOf" then some "function isPrototypeOf() \x7b [native code] \x7d"
  else if key = "propertyIsEnumerable" then some "function propertyIsEnumerable() \x7b [native code] \x7d"
  else if key = "toLocaleString" then some "function toLocaleString() \x7b [native code] \x7d"
  else if key = "toString" then some "function toString() \x7b [native code] \x7d"
  else if key = "valueOf" then some "function valueOf() \x7b [native code] \x7d"
  else if key = "__defineGetter__" then some "function __defineGetter__() \x7b [native code] \x7d"
  else if key = "__defineSetter__" then some "function __defineSetter__() \x7b [native code] \x7d"
  else if key = "__lookupGetter__" then some "function __lookupGetter__() \x7b [native code] \x7d"
  else if key = "__lookupSetter__" then some "function __lookupSetter__() \x7b [native code] \x7d"
  else if key = "__proto__" then some "[object Object]"
  else none

/-- The `prismaTypeMap` object literal: an own property if the key is one of
the eight logical types, otherwise the prototype-chain lookup. -/
def prismaTypeMap (t : String) : Option String :=
  if t = "string" then some "String"
  else if t = "integer" then some "Int"
  else if t = "boolean" then some "Boolean"
  else if t = "timestamp" then some "DateTime"
  else if t = "decimal" then some "Decimal"
  else if t = "json" then some "Json"
  else if t = "text" then some "String"
  else if t = "uuid" then some "String"
  else objectPrototypeLookup t

/-- The nested `sqlTypeMap` object literal: per-dialect lookup by logical type. -/
def sqlTypeMap (d : Dialect) (t : String) : Option String :=
  match d with
  | .postgresql =>
    if t = "string" then some "VARCHAR(255)"
    else if t = "integer" then some "INTEGER"
    else if t = "boolean" then some "BOOLEAN"
    else if t = "timestamp" then some "TIMESTAMP DEFAULT CURRENT_TIMESTAMP"
    else if t = "decimal" then some "DECIMAL(10,2)"
    else if t = "json" then some "JSONB"
    else if t = "text" then some "TEXT"
    else if t = "uuid" then some "UUID"
    else objectPrototypeLookup t
  | .mysql =>
    if t = "string" then some "VARCHAR(255)"
    else if t = "integer" then some "INT"
    else if t = "boolean" then some "BOOLEAN"
    else if t = "timestamp" then some "TIMESTAMP DEFAULT CURRENT_TIMESTAMP"
    else if t = "decimal" then some "DECIMAL(10,2)"
    else if t = "json" then some "JSON"
    else if t = "text" then some "LONGTEXT"
    else if t = "uuid" then some "CHAR(36)"
    else objectPrototypeLookup t
  | .sqlite =>
    if t = "string" then some "TEXT"
    else if t = "integer" then some "INTEGER"
    else if t = "boolean" then some "INTEGER"
    else if t = "timestamp" then some "DATETIME DEFAULT CURRENT_TIMESTAMP"
    else if t = "decimal" then some "REAL"
    else if t = "json" then some "TEXT"
    else if t = "uuid" then some "TEXT"
    else objectPrototypeLookup t

/-- `mapSqlType` of the shared module: `sqlTypeMap[dialect][type] || "TEXT"`. -/
def mapSqlType (t : String) (d : Dialect) : String :=
  jsOrString (sqlTypeMap d t) "TEXT"

/-- `mapPrismaType` of the shared module: lookup with `"String"` fallback, `?` suffix iff nullable. -/
def mapPrismaType (t : String) (nullable : Bool) : String :=
  let baseType := jsOrString (prismaTypeMap t) "String"
  if nullable then baseType ++ "?" else baseType

/-- The per-column arrow function inside `generateSQL` (sequential `def +=` updates). -/
def sqlColumnDef (dialect : Dialect) (col : Column) : String :=
  let d0 := "  " ++ col.name ++ " " ++ mapSqlType col.type dialect
  let d1 := if col.isPrimaryKey then d0 ++ " PRIMARY KEY" else d0
  let d2 := if !col.nullable then d1 ++ " NOT NULL" else d1
  if col.isForeignKey && strTruthy col.foreignKeyTable then
    d2 ++ " REFERENCES " ++ col.foreignKeyTable.getD "" ++ "(id)"
  else d2

/-- The per-table arrow function inside `generateSQL`. -/
def sqlTableDef (dialect : Dialect) (table : Table) : String :=
  let columnDefs := String.intercalate ",\n" (table.columns.map (sqlColumnDef dialect))
  "CREATE TABLE " ++ table.name ++ " (\n" ++ columnDefs ++ "\n);"

/-- `generateSQL` of the shared module. -/
def generateSQL (schema : GeneratedSchema) (dialect : Dialect) : String :=
  if schema.tables.isEmpty then ""
  else String.intercalate "\n\n" (schema.tables.map (sqlTableDef dialect))

/-- `table.name.charAt(0).toUpperCase() + table.name.slice(1)` (ASCII case mapping). -/
def capitalizeFirst (s : String) : String :=
  match s.data with
  | [] => ""
  | c :: cs => String.mk (Char.toUpper c :: cs)

/-- The fixed preamble string of `generatePrismaSchema`. -/
def prismaPreamble : String :=
  "// Prisma Schema\n\ngenerator client \x7b\n  provider = \x22prisma-client-js\x22\n\x7d\n\ndatasource db \x7b\n  provider = \x22postgresql\x22\n  url      = env(\x22DATABASE_URL\x22)\n\x7d\n\n"

/-- The per-column field line of `generatePrismaSchema` (sequential `fieldCode +=` updates). -/
def prismaFieldCode (col : Column) : String :=
  let prismaType := mapPrismaType col.type col.nullable
  let f0 := "  " ++ col.name ++ " " ++ prismaType
  let f1 := if col.isPrimaryKey then f0 ++ " @id" else f0
  let f2 := if col.type = "timestamp" then f1 ++ " @default(now())" else f1
  f2 ++ "\n"

/-- The per-table model block of `generatePrismaSchema`: a `forEach` loop accumulating
into `modelCode`, modelled as a left fold. -/
def prismaModelCode (table : Table) : String :=
  let header := "model " ++ capitalizeFirst table.name ++ " \x7b\n"
  table.columns.foldl (fun acc col => acc ++ prismaFieldCode col) header ++ "\x7d\n"

/-- `generatePrismaSchema` of the shared module. -/
def generatePrismaSchema (schema : GeneratedSchema) : String :=
  if schema.tables.isEmpty then ""
  else prismaPreamble ++ String.intercalate "\n" (schema.tables.map prismaModelCode)

/-- The fixed import line of `generateDrizzleSchema`. -/
def drizzlePreamble : String :=
  "import \x7b pgTable, serial, varchar, integer, boolean, timestamp, decimal, jsonb \x7d from \x27drizzle-orm/pg-core\x27;\n\n"

/-- The `switch (col.type)` branch of `generateDrizzleSchema` selecting the builder call. -/
def drizzleTypeCode (t : String) : String :=
  if t = "string" then "varchar(255)"
  else if t = "integer" then "serial()"
  else if t = "boolean" then "boolean()"
  else if t = "timestamp" then "timestamp().defaultNow()"
  else if t = "decimal" then "decimal(\x2710,2\x27)"
  else if t = "json" then "jsonb()"
  else "varchar(255)"

/-- The per-column field line of `generateDrizzleSchema`. -/
def drizzleFieldCode (col : Column) : String :=
  let f0 := "  " ++ col.name ++ ": " ++ drizzleTypeCode col.type
  let f1 := if col.isPrimaryKey then f0 ++ ".primaryKey()" else f0
  let f2 := if !col.nullable then f1 ++ ".notNull()" else f1
  f2 ++ ",\n"

/-- The per-table constant of `generateDrizzleSchema`: a `forEach` loop accumulating
into `tableCode`, modelled as a left fold. -/
def drizzleTableCode (table : Table) : String :=
  let header := "export const " ++ table.name ++ " = pgTable(\x27" ++ table.name ++ "\x27, \x7b\n"
  table.columns.foldl (fun acc col => acc ++ drizzleFieldCode col) header ++ "\x7d);\n"

/-- `generateDrizzleSchema` of the shared module. -/
def generateDrizzleSchema (schema : GeneratedSchema) : String :=
  if schema.tables.isEmpty then ""
  else drizzlePreamble ++ String.intercalate "\n" (schema.tables.map drizzleTableCode)

structure SqlFormats where
  postgresql : String
  mysql : String
  sqlite : String
  deriving DecidableEq

structure CodeFormats where
  sql : SqlFormats
  prisma : String
  drizzle : String
  deriving DecidableEq

/-- `generateAllCodeFormats` of the shared module. -/
def generateAllCodeFormats (schema : GeneratedSchema) : CodeFormats :=
  { sql :=
      { postgresql := generateSQL schema .postgresql
        mysql := generateSQL schema .mysql
        sqlite := generateSQL schema .sqlite }
    prisma := generatePrismaSchema schema
    drizzle := generateDrizzleSchema schema }

/-!
The inline emitter variant duplicated inside the `ScriptsBuilder` UI component
(`src/components/scripts-builder.tsx`).  There the lookup tables and the three
generator closures live inside the component body and close over the `schema`
prop and the `selectedDialect` state; here they are functions of those values.
-/

/-- The component-local `prismaTypeMap` object literal. -/
def ScriptsBuilder.prismaTypeMap (t : String) : Option String :=
  if t = "string" then some "String"
  else if t = "integer" then some "Int"
  else if t = "boolean" then some "Boolean"
  else if t = "timestamp" then some "DateTime"
  else if t = "decimal" then some "Decimal"
  else if t = "json" then some "Json"
  else if t = "text" then some "String"
  else if t = "uuid" then some "String"
  else objectPrototypeLookup t

/-- The component-local `sqlTypeMap` object literal. -/
def ScriptsBuilder.sqlTypeMap (d : Dialect) (t : String) : Option String :=
  match d with
  | .postgresql =>
    if t = "string" then some "VARCHAR(255)"
    else if t = "integer" then some "INTEGER"
    else if t = "boolean" then some "BOOLEAN"
    else if t = "timestamp" then some "TIMESTAMP DEFAULT CURRENT_TIMESTAMP"
    else if t = "decimal" then some "DECIMAL(10,2)"
    else if t = "json" then some "JSONB"
    else if t = "text" then some "TEXT"
    else if t = "uuid" then some "UUID"
    else objectPrototypeLookup t
  | .mysql =>
    if t = "string" then some "VARCHAR(255)"
    else if t = "integer" then some "INT"
    else if t = "boolean" then some "BOOLEAN"
    else if t = "timestamp" then some "TIMESTAMP DEFAULT CURRENT_TIMESTAMP"
    else if t = "decimal" then some "DECIMAL(10,2)"
    else if t = "json" then some "JSON"
    else if t = "text" then some "LONGTEXT"
    else if t = "uuid" then some "CHAR(36)"
    else objectPrototypeLookup t
  | .sqlite =>
    if t = "string" then some "TEXT"
    else if t = "integer" then some "INTEGER"
    else if t = "boolean" then some "INTEGER"
    else if t = "timestamp" then some "DATETIME DEFAULT CURRENT_TIMESTAMP"
    else if t = "decimal" then some "REAL"
    else if t = "json" then some "TEXT"
    else if t = "uuid" then some "TEXT"
    else objectPrototypeLookup t

/-- The component-local `mapSqlType` closure over the `selectedDialect` state. -/
def ScriptsBuilder.mapSqlType (selectedDialect : Dialect) (t : String) : String :=
  jsOrString (ScriptsBuilder.sqlTypeMap selectedDialect t) "TEXT"

/-- The component-local `mapPrismaType`. -/
def ScriptsBuilder.mapPrismaType (t : String) (nullable : Bool) : String :=
  let baseType := jsOrString (ScriptsBuilder.prismaTypeMap t) "String"
  if nullable then baseType ++ "?" else baseType

/-- The component-local `generateSQL` closure over the `schema` prop and
`selectedDialect` state. -/
def ScriptsBuilder.generateSQL (schema : GeneratedSchema) (selectedDialect : Dialect) : String :=
  if schema.tables.isEmpty then ""
  else String.intercalate "\n\n" (schema.tables.map (fun table =>
    let columnDefs := String.intercalate ",\n" (table.columns.map (fun col =>
      let d0 := "  " ++ col.name ++ " " ++ ScriptsBuilder.mapSqlType selectedDialect col.type
      let d1 := if col.isPrimaryKey then d0 ++ " PRIMARY KEY" else d0
      let d2 := if !col.nullable then d1 ++ " NOT NULL" else d1
      if col.isForeignKey && strTruthy col.foreignKeyTable then
        d2 ++ " REFERENCES " ++ col.foreignKeyTable.getD "" ++ "(id)"
      else d2))
    "CREATE TABLE " ++ table.name ++ " (\n" ++ columnDefs ++ "\n);"))

/-- The component-local `generatePrismaSchema` closure over the `schema` prop. -/
def ScriptsBuilder.generatePrismaSchema (schema : GeneratedSchema) : String :=
  if schema.tables.isEmpty then ""
  else
    "// Prisma Schema\n\ngenerator client \x7b\n  provider = \x22prisma-client-js\x22\n\x7d\n\ndatasource db \x7b\n  provider = \x22postgresql\x22\n  url      = env(\x22DATABASE_URL\x22)\n\x7d\n\n"
    ++ String.intercalate "\n" (schema.tables.map (fun table =>
      let header := "model " ++ capitalizeFirst table.name ++ " \x7b\n"
      table.columns.foldl (fun acc col =>
        let prismaType := ScriptsBuilder.mapPrismaType col.type col.nullable
        let f0 := "  " ++ col.name ++ " " ++ prismaType
        let f1 := if col.isPrimaryKey then f0 ++ " @id" else f0
        let f2 := if col.type = "timestamp" then f1 ++ " @default(now())" else f1
        acc ++ (f2 ++ "\n")) header ++ "\x7d\n"))

/-- The component-local `generateDrizzleSchema` closure over the `schema` prop. -/
def ScriptsBuilder.generateDrizzleSchema (schema : GeneratedSchema) : String :=
  if schema.tables.isEmpty then ""
  else
    "import \x7b pgTable, serial, varchar, integer, boolean, timestamp, decimal, jsonb \x7d from \x27drizzle-orm/pg-core\x27;\n\n"
    ++ String.intercalate "\n" (schema.tables.map (fun table =>
      let header := "export const " ++ table.name ++ " = pgTable(\x27" ++ table.name ++ "\x27, \x7b\n"
      table.columns.foldl (fun acc col =>
        let rhs :=
          if col.type = "string" then "varchar(255)"
          else if col.type = "integer" then "serial()"
          else if col.type = "boolean" then "boolean()"
          else if col.type = "timestamp" then "timestamp().defaultNow()"
          else if col.type = "decimal" then "decimal(\x2710,2\x27)"
          else if col.type = "json" then "jsonb()"
          else "varchar(255)"
        let f0 := "  " ++ col.name ++ ": " ++ rhs
        let f1 := if col.isPrimaryKey then f0 ++ ".primaryKey()" else f0
        let f2 := if !col.nullable then f1 ++ ".notNull()" else f1
        acc ++ (f2 ++ ",\n")) header ++ "\x7d);\n"))

/-!
Helper definitions and lemmas shared by the theorems below.
-/

/-- Concatenation of the rendered pieces of a list, in list order. -/
def strJoinMap {α : Type} (f : α → String) : List α → String
  | [] => ""
  | c :: cs => f c ++ strJoinMap f cs

/-- A `forEach` loop that appends one rendered piece per element produces the
initial accumulator followed by the pieces in list order. -/
theorem foldl_append_eq {α : Type} (f : α → String) (l : List α) :
    ∀ init : String, l.foldl (fun acc c => acc ++ f c) init = init ++ strJoinMap f l := by
  induction l with
  | nil => intro init; simp [strJoinMap]
  | cons c cs ih => intro init; simp [List.foldl, strJoinMap, ih, String.append_assoc]

/-- The column of the flag-composition scenario: `user_id` of type `integer`,
primary key, not nullable, foreign key into `users`. -/
def ordersColumn : Column :=
  { id := "c1", name := "user_id", type := "integer", nullable := false,
    isPrimaryKey := true, isForeignKey := true, foreignKeyTable := some "users" }

/-- The table `orders` of the flag-composition scenario. -/
def ordersTable : Table :=
  { id := "t1", name := "orders", columns := [ordersColumn] }

/-- The one-table, one-column schema of the flag-composition scenario. -/
def ordersSchema : GeneratedSchema :=
  { tables := [ordersTable], description := "", explanation := none, timestamp := "" }

/-- A foreign-key column with no `foreignKeyTable` value. -/
def fkNoTableCol : Column :=
  { id := "c2", name := "ref_id", type := "integer", nullable := false,
    isPrimaryKey := false, isForeignKey := true, foreignKeyTable := none }

/-- A schema with zero tables. -/
def emptySchema : GeneratedSchema :=
  { tables := [], description := "", explanation := none, timestamp := "" }

/-- C1: the SQL emitter builds each column clause in the fixed order
indent, name, space, dialect-mapped physical type, then ` PRIMARY KEY` iff
`isPrimaryKey`, then ` NOT NULL` iff not nullable, then
` REFERENCES <foreignKeyTable>(id)` iff `isForeignKey` holds and
`foreignKeyTable` is present; in particular the postgresql output for the
`orders`/`user_id` example contains the line
`  user_id INTEGER PRIMARY KEY NOT NULL REFERENCES users(id)`. -/
theorem sql_column_clause_order (d : Dialect) (c : Column) :
    sqlColumnDef d c =
      "  " ++ c.name ++ " " ++ mapSqlType c.type d
        ++ (if c.isPrimaryKey then " PRIMARY KEY" else "")
        ++ (if c.nullable then "" else " NOT NULL")
        ++ (if c.isForeignKey && strTruthy c.foreignKeyTable then
              " REFERENCES " ++ c.foreignKeyTable.getD "" ++ "(id)" else "")
    ∧ generateSQL ordersSchema .postgresql =
        "CREATE TABLE orders (\n"
          ++ "  user_id INTEGER PRIMARY KEY NOT NULL REFERENCES users(id)"
          ++ "\n);" := by
  constructor
  · cases hp : c.isPrimaryKey <;> cases hn : c.nullable <;>
      cases hf : c.isForeignKey && strTruthy c.foreignKeyTable <;>
      simp [sqlColumnDef, hp, hn, hf, ← String.append_assoc]
  · rfl

/-- C5: every declarative-ORM field line is the column name, the mapped scalar
type with `?` appended iff nullable, then ` @id` iff `isPrimaryKey`, then
` @default(now())` iff the logical type is exactly `timestamp`; the
`@default(now())` annotation is independent of nullability and primary-key
status. -/
theorem prisma_field_line (c : Column) :
    prismaFieldCode c =
      "  " ++ c.name ++ " " ++ jsOrString (prismaTypeMap c.type) "String"
        ++ (if c.nullable then "?" else "")
        ++ (if c.isPrimaryKey then " @id" else "")
        ++ (if c.type = "timestamp" then " @default(now())" else "")
        ++ "\n" := by
  by_cases ht : c.type = "timestamp" <;> cases hp : c.isPrimaryKey <;> cases hn : c.nullable <;>
    simp [prismaFieldCode, mapPrismaType, ht, hp, hn, ← String.append_assoc]

/-- C6: a column flagged as a foreign key but carrying no `foreignKeyTable`
value gets its clause emitted without any REFERENCES part, in every dialect. -/
theorem sql_fk_without_table (d : Dialect) (c : Column)
    (_hfk : c.isForeignKey = true) (habs : c.foreignKeyTable = none) :
    sqlColumnDef d c =
      "  " ++ c.name ++ " " ++ mapSqlType c.type d
        ++ (if c.isPrimaryKey then " PRIMARY KEY" else "")
        ++ (if c.nullable then "" else " NOT NULL") := by
  cases hp : c.isPrimaryKey <;> cases hn : c.nullable <;>
    simp [sqlColumnDef, strTruthy, hp, hn, habs, ← String.append_assoc]

/-- Witness for C6 at the concrete column `fkNoTableCol` and dialect postgresql. -/
theorem sql_fk_without_table_witness :
    fkNoTableCol.isForeignKey = true ∧ fkNoTableCol.foreignKeyTable = none ∧
    sqlColumnDef .postgresql fkNoTableCol =
      "  " ++ fkNoTableCol.name ++ " " ++ mapSqlType fkNoTableCol.type .postgresql
        ++ (if fkNoTableCol.isPrimaryKey then " PRIMARY KEY" else "")
        ++ (if fkNoTableCol.nullable then "" else " NOT NULL") :=
  ⟨rfl, rfl, sql_fk_without_table .postgresql fkNoTableCol rfl rfl⟩

/-- C2 counterexample: on a schema with zero tables, `generatePrismaSchema`
returns the empty string, which does not include the fixed preamble. -/
theorem empty_schema_prisma_counterexample :
    generatePrismaSchema emptySchema = ""
    ∧ prismaPreamble ≠ ""
    ∧ prismaPreamble.data.isPrefixOf (generatePrismaSchema emptySchema).data = false := by
  refine ⟨rfl, ?_, rfl⟩
  decide

/-- C2 (amended): a schema with zero tables produces the empty string for every
SQL dialect, the empty string for the fluent-builder output (so its table
section is empty), and the empty string for the declarative ORM output as well
— the fixed preamble is not emitted. -/
theorem empty_schema_outputs (s : GeneratedSchema) (d : Dialect) (h : s.tables = []) :
    generateSQL s d = "" ∧ generatePrismaSchema s = "" ∧ generateDrizzleSchema s = "" := by
  refine ⟨?_, ?_, ?_⟩ <;>
    simp [generateSQL, generatePrismaSchema, generateDrizzleSchema, h]

/-- Witness for C2 (amended) at the concrete empty schema and dialect postgresql. -/
theorem empty_schema_outputs_witness :
    emptySchema.tables = []
    ∧ (generateSQL emptySchema .postgresql = "" ∧ generatePrismaSchema emptySchema = ""
        ∧ generateDrizzleSchema emptySchema = "") :=
  ⟨rfl, empty_schema_outputs emptySchema .postgresql rfl⟩

/-- C4: every emitted artifact lists the tables in schema order and, within a
table, the columns in table order: each output is the separator-join of the
per-table renderings mapped over the schema's table list, and each per-table
rendering embeds the per-column renderings mapped over (or concatenated along)
the table's column list; in the SQL output there is one CREATE TABLE statement
per table, statements separated by a blank line. -/
theorem artifacts_preserve_order (s : GeneratedSchema) (d : Dialect) (t : Table)
    (h : s.tables ≠ []) :
    generateSQL s d = String.intercalate "\n\n" (s.tables.map (sqlTableDef d))
    ∧ sqlTableDef d t = "CREATE TABLE " ++ t.name ++ " (\n"
        ++ String.intercalate ",\n" (t.columns.map (sqlColumnDef d)) ++ "\n);"
    ∧ generatePrismaSchema s
        = prismaPreamble ++ String.intercalate "\n" (s.tables.map prismaModelCode)
    ∧ prismaModelCode t = "model " ++ capitalizeFirst t.name ++ " \x7b\n"
        ++ strJoinMap prismaFieldCode t.columns ++ "\x7d\n"
    ∧ generateDrizzleSchema s
        = drizzlePreamble ++ String.intercalate "\n" (s.tables.map drizzleTableCode)
    ∧ drizzleTableCode t
        = "export const " ++ t.name ++ " = pgTable(\x27" ++ t.name ++ "\x27, \x7b\n"
          ++ strJoinMap drizzleFieldCode t.columns ++ "\x7d);\n" := by
  refine ⟨?_, rfl, ?_, ?_, ?_, ?_⟩
  · simp [generateSQL, List.isEmpty_iff, h]
  · simp [generatePrismaSchema, List.isEmpty_iff, h]
  · simp [prismaModelCode, foldl_append_eq, ← String.append_assoc]
  · simp [generateDrizzleSchema, List.isEmpty_iff, h]
  · simp [drizzleTableCode, foldl_append_eq, ← String.append_assoc]

/-- Witness for C4 at the concrete one-table schema `ordersSchema` and dialect postgresql. -/
theorem artifacts_preserve_order_witness :
    ordersSchema.tables ≠ []
    ∧ (generateSQL ordersSchema .postgresql
          = String.intercalate "\n\n" (ordersSchema.tables.map (sqlTableDef .postgresql))
        ∧ sqlTableDef .postgresql ordersTable = "CREATE TABLE " ++ ordersTable.name ++ " (\n"
            ++ String.intercalate ",\n" (ordersTable.columns.map (sqlColumnDef .postgresql)) ++ "\n);"
        ∧ generatePrismaSchema ordersSchema
            = prismaPreamble ++ String.intercalate "\n" (ordersSchema.tables.map prismaModelCode)
        ∧ prismaModelCode ordersTable = "model " ++ capitalizeFirst ordersTable.name ++ " \x7b\n"
            ++ strJoinMap prismaFieldCode ordersTable.columns ++ "\x7d\n"
        ∧ generateDrizzleSchema ordersSchema
            = drizzlePreamble ++ String.intercalate "\n" (ordersSchema.tables.map drizzleTableCode)
        ∧ drizzleTableCode ordersTable
            = "export const " ++ ordersTable.name ++ " = pgTable(\x27" ++ ordersTable.name ++ "\x27, \x7b\n"
              ++ strJoinMap drizzleFieldCode ordersTable.columns ++ "\x7d);\n") :=
  ⟨by decide, artifacts_preserve_order ordersSchema .postgresql ordersTable (by decide)⟩

/-- C7: the emitter variant duplicated inline inside the `ScriptsBuilder`
component computes the same function as the extracted shared-module emitters:
for every schema and dialect the three generated strings coincide. -/
theorem inline_matches_shared (s : GeneratedSchema) (d : Dialect) :
    ScriptsBuilder.generateSQL s d = generateSQL s d
    ∧ ScriptsBuilder.generatePrismaSchema s = generatePrismaSchema s
    ∧ ScriptsBuilder.generateDrizzleSchema s = generateDrizzleSchema s :=
  ⟨rfl, rfl, rfl⟩

/-- C8: the aggregator is deterministic: two invocations of
`generateAllCodeFormats` on the same schema value yield identical strings in
all five fields. -/
theorem aggregator_deterministic (s₁ s₂ : GeneratedSchema) (h : s₁ = s₂) :
    (generateAllCodeFormats s₁).sql.postgresql = (generateAllCodeFormats s₂).sql.postgresql
    ∧ (generateAllCodeFormats s₁).sql.mysql = (generateAllCodeFormats s₂).sql.mysql
    ∧ (generateAllCodeFormats s₁).sql.sqlite = (generateAllCodeFormats s₂).sql.sqlite
    ∧ (generateAllCodeFormats s₁).prisma = (generateAllCodeFormats s₂).prisma
    ∧ (generateAllCodeFormats s₁).drizzle = (generateAllCodeFormats s₂).drizzle := by
  subst h
  exact ⟨rfl, rfl, rfl, rfl, rfl⟩

/-- Witness for C8 at the concrete schema `ordersSchema`. -/
theorem aggregator_deterministic_witness :
    ordersSchema = ordersSchema
    ∧ ((generateAllCodeFormats ordersSchema).sql.postgresql = (generateAllCodeFormats ordersSchema).sql.postgresql
        ∧ (generateAllCodeFormats ordersSchema).sql.mysql = (generateAllCodeFormats ordersSchema).sql.mysql
        ∧ (generateAllCodeFormats ordersSchema).sql.sqlite = (generateAllCodeFormats ordersSchema).sql.sqlite
        ∧ (generateAllCodeFormats ordersSchema).prisma = (generateAllCodeFormats ordersSchema).prisma
        ∧ (generateAllCodeFormats ordersSchema).drizzle = (generateAllCodeFormats ordersSchema).drizzle) :=
  ⟨rfl, aggregator_deterministic ordersSchema ordersSchema rfl⟩

/-- Erase the two foreign-key fields of a column. -/
def Column.eraseFK (c : Column) : Column :=
  { c with isForeignKey := false, foreignKeyTable := none }

/-- Erase the foreign-key fields of every column of a table. -/
def Table.eraseFK (t : Table) : Table :=
  { t with columns := t.columns.map Column.eraseFK }

/-- Erase the foreign-key fields of every column of a schema. -/
def GeneratedSchema.eraseFK (s : GeneratedSchema) : GeneratedSchema :=
  { s with tables := s.tables.map Table.eraseFK }

/-- A declarative-ORM field line never reads the foreign-key fields. -/
theorem prismaFieldCode_eraseFK (c : Column) :
    prismaFieldCode (Column.eraseFK c) = prismaFieldCode c := rfl

/-- A fluent-builder field line never reads the foreign-key fields. -/
theorem drizzleFieldCode_eraseFK (c : Column) :
    drizzleFieldCode (Column.eraseFK c) = drizzleFieldCode c := rfl

/-- A declarative-ORM model block never reads the foreign-key fields. -/
theorem prismaModelCode_eraseFK (t : Table) :
    prismaModelCode (Table.eraseFK t) = prismaModelCode t := by
  simp [prismaModelCode, Table.eraseFK, List.foldl_map, prismaFieldCode_eraseFK]

/-- A fluent-builder table block never reads the foreign-key fields. -/
theorem drizzleTableCode_eraseFK (t : Table) :
    drizzleTableCode (Table.eraseFK t) = drizzleTableCode t := by
  simp [drizzleTableCode, Table.eraseFK, List.foldl_map, drizzleFieldCode_eraseFK]

/-- Mapping the model-block rendering over fk-erased tables gives the original renderings. -/
theorem map_prismaModelCode_eraseFK (l : List Table) :
    (l.map Table.eraseFK).map prismaModelCode = l.map prismaModelCode := by
  induction l with
  | nil => rfl
  | cons a l ih => simp only [List.map_cons, prismaModelCode_eraseFK, ih]

/-- Mapping the table-block rendering over fk-erased tables gives the original renderings. -/
theorem map_drizzleTableCode_eraseFK (l : List Table) :
    (l.map Table.eraseFK).map drizzleTableCode = l.map drizzleTableCode := by
  induction l with
  | nil => rfl
  | cons a l ih => simp only [List.map_cons, drizzleTableCode_eraseFK, ih]

/-- The declarative-ORM output is invariant under erasing foreign-key fields. -/
theorem generatePrismaSchema_eraseFK (s : GeneratedSchema) :
    generatePrismaSchema (GeneratedSchema.eraseFK s) = generatePrismaSchema s := by
  cases hs : s.tables with
  | nil => simp [generatePrismaSchema, GeneratedSchema.eraseFK, hs]
  | cons a l =>
    simp only [generatePrismaSchema, GeneratedSchema.eraseFK, hs]
    rw [map_prismaModelCode_eraseFK]
    simp

/-- The fluent-builder output is invariant under erasing foreign-key fields. -/
theorem generateDrizzleSchema_eraseFK (s : GeneratedSchema) :
    generateDrizzleSchema (GeneratedSchema.eraseFK s) = generateDrizzleSchema s := by
  cases hs : s.tables with
  | nil => simp [generateDrizzleSchema, GeneratedSchema.eraseFK, hs]
  | cons a l =>
    simp only [generateDrizzleSchema, GeneratedSchema.eraseFK, hs]
    rw [map_drizzleTableCode_eraseFK]
    simp

/-- C9: the two ORM emitters never read the foreign-key fields: two schemas
that agree after erasing `isForeignKey` and `foreignKeyTable` from every
column produce identical declarative-ORM and fluent-builder outputs. -/
theorem orm_outputs_ignore_fk (s₁ s₂ : GeneratedSchema)
    (h : GeneratedSchema.eraseFK s₁ = GeneratedSchema.eraseFK s₂) :
    generatePrismaSchema s₁ = generatePrismaSchema s₂
    ∧ generateDrizzleSchema s₁ = generateDrizzleSchema s₂ := by
  constructor
  · rw [← generatePrismaSchema_eraseFK s₁, h, generatePrismaSchema_eraseFK]
  · rw [← generateDrizzleSchema_eraseFK s₁, h, generateDrizzleSchema_eraseFK]

/-- The flag-composition schema with its foreign-key information dropped. -/
def ordersSchemaNoFK : GeneratedSchema :=
  { tables := [{ id := "t1", name := "orders",
                 columns := [{ id := "c1", name := "user_id", type := "integer",
                               nullable := false, isPrimaryKey := true,
                               isForeignKey := false, foreignKeyTable := none }] }]
    description := "", explanation := none, timestamp := "" }

/-- Witness for C9 at the concrete schemas `ordersSchema` and `ordersSchemaNoFK`. -/
theorem orm_outputs_ignore_fk_witness :
    GeneratedSchema.eraseFK ordersSchema = GeneratedSchema.eraseFK ordersSchemaNoFK
    ∧ (generatePrismaSchema ordersSchema = generatePrismaSchema ordersSchemaNoFK
        ∧ generateDrizzleSchema ordersSchema = generateDrizzleSchema ordersSchemaNoFK) :=
  ⟨rfl, orm_outputs_ignore_fk ordersSchema ordersSchemaNoFK rfl⟩

/-- C10: a table whose column list is empty is not omitted and produces no
error: its statement is the degenerate `CREATE TABLE <name> (\n\n);`, and the
SQL output is still the blank-line join of all per-table statements in schema
order. -/
theorem sql_empty_columns_table (d : Dialect) (s : GeneratedSchema) (t : Table)
    (ht : t ∈ s.tables) (hc : t.columns = []) :
    sqlTableDef d t = "CREATE TABLE " ++ t.name ++ " (\n\n);"
    ∧ ("CREATE TABLE " ++ t.name ++ " (\n\n);") ∈ s.tables.map (sqlTableDef d)
    ∧ generateSQL s d = String.intercalate "\n\n" (s.tables.map (sqlTableDef d)) := by
  have h1 : sqlTableDef d t = "CREATE TABLE " ++ t.name ++ " (\n\n);" := by
    simp [sqlTableDef, hc, String.intercalate, String.append_assoc]
  refine ⟨h1, ?_, ?_⟩
  · rw [← h1]
    exact List.mem_map_of_mem _ ht
  · cases hs : s.tables with
    | nil => rw [hs] at ht; exact absurd ht (List.not_mem_nil t)
    | cons a l => simp [generateSQL, hs]

/-- A table with an empty column list. -/
def emptyColsTable : Table := { id := "t9", name := "empty_table", columns := [] }

/-- A schema whose only table has an empty column list. -/
def emptyColsSchema : GeneratedSchema :=
  { tables := [emptyColsTable], description := "", explanation := none, timestamp := "" }

/-- Witness for C10 at the concrete schema `emptyColsSchema` and dialect sqlite. -/
theorem sql_empty_columns_table_witness :
    emptyColsTable ∈ emptyColsSchema.tables
    ∧ emptyColsTable.columns = []
    ∧ (sqlTableDef .sqlite emptyColsTable = "CREATE TABLE " ++ emptyColsTable.name ++ " (\n\n);"
        ∧ ("CREATE TABLE " ++ emptyColsTable.name ++ " (\n\n);")
            ∈ emptyColsSchema.tables.map (sqlTableDef .sqlite)
        ∧ generateSQL emptyColsSchema .sqlite
            = String.intercalate "\n\n" (emptyColsSchema.tables.map (sqlTableDef .sqlite))) :=
  ⟨by simp [emptyColsSchema], rfl,
    sql_empty_columns_table .sqlite emptyColsSchema emptyColsTable (by simp [emptyColsSchema]) rfl⟩
